import Mathlib

/-!
Verification of the Intelligent Traffic Monitoring repository.

Shallow embedding of the two core modules:
- traffic_logic/traffic_light.py : the TrafficLightController class
  (light state machine, dynamic green duration).
- analyzer/analyzer.py : the VideoAnalyzer class (per-frame detection
  count, retained analysis snapshot, frame-source looping, capture
  cadence).

Python floats that only ever hold halves and small integers are modelled
as rationals; Python ints as integers or naturals; Python dicts with an
optional key as an Option field; the detector (external black box) as the
list of labels it reports for a frame; wall-clock times as rationals.
-/

/-- The three light states of traffic_light.py: the strings "red",
"green", "yellow" held in self.state. -/
inductive LightState
  | red
  | green
  | yellow
  deriving DecidableEq

/-- The snapshot dict returned by get_state (traffic_light.py lines
33-42): keys red, yellow, green. -/
structure StateSnapshot where
  red : Bool
  yellow : Bool
  green : Bool
  deriving DecidableEq

/-- get_state (traffic_light.py lines 33-42): each flag compares
self.state with the corresponding string. -/
def get_state (state : LightState) : StateSnapshot :=
  { red := decide (state = LightState.red)
  , yellow := decide (state = LightState.yellow)
  , green := decide (state = LightState.green) }

/-- self.green_light_base_duration = 5 (traffic_light.py line 21). -/
def green_light_base_duration : ℚ := 5

/-- self.green_light_max_duration = 20 (traffic_light.py line 23). -/
def green_light_max_duration : ℚ := 20

/-- The analysis_data dict passed to update_logic_with_analysis; the
"vehicle_count" key may be absent, hence an Option field read with
.get("vehicle_count", 0). -/
structure AnalysisDict where
  vehicle_count : Option ℤ
  deriving DecidableEq

/-- The mutable attributes of the TrafficLightController object:
self.state, self.current_green_duration, and the local variable
current_duration of _run_dynamic_cycle, i.e. the dwell captured for the
phase currently in progress. -/
structure TrafficLightController where
  state : LightState
  current_green_duration : ℚ
  current_duration : ℚ
  deriving DecidableEq

/-- __init__ (traffic_light.py lines 12-31): state starts at red,
current_green_duration at the base duration; the cycle thread begins in
the red phase whose fixed dwell is 15. -/
def initController : TrafficLightController :=
  { state := LightState.red
  , current_green_duration := green_light_base_duration
  , current_duration := 15 }

/-- update_logic_with_analysis (traffic_light.py lines 53-70):
vehicle_count = analysis_data.get("vehicle_count", 0); calculated =
base + count * 0.5; current_green_duration = max(base, min(calculated,
max)). Only current_green_duration is written. -/
def update_logic_with_analysis (s : TrafficLightController)
    (analysis_data : AnalysisDict) : TrafficLightController :=
  let vehicle_count : ℤ := analysis_data.vehicle_count.getD 0
  let calculated_duration : ℚ :=
    green_light_base_duration + (vehicle_count : ℚ) * (1 / 2)
  let clamped : ℚ :=
    max green_light_base_duration
      (min calculated_duration green_light_max_duration)
  { s with current_green_duration := clamped }

/-- The fixed cyclic successor of _run_dynamic_cycle (traffic_light.py
lines 72-90): the loop body sets red, then green, then yellow, forever. -/
def next_light : LightState → LightState
  | LightState.red => LightState.green
  | LightState.green => LightState.yellow
  | LightState.yellow => LightState.red

/-- Events interleaved on the controller object: the cycle thread
advancing to the next phase (the _set_state plus dwell capture of
_run_dynamic_cycle), or the pipeline thread calling
update_logic_with_analysis. -/
inductive CycleEvent
  | advance
  | update (analysis_data : AnalysisDict)

/-- One controller transition (traffic_light.py lines 53-90). On
advance: red enters green and captures the dwell by reading
current_green_duration once, under the duration lock, at that instant
(lines 82-86); green enters yellow with fixed dwell 3 (lines 89-90);
yellow enters red with fixed dwell 15 (lines 78-79). On update:
update_logic_with_analysis runs. -/
def cycle_step (s : TrafficLightController) : CycleEvent → TrafficLightController
  | CycleEvent.advance =>
    match s.state with
    | LightState.red =>
      { s with state := LightState.green
             , current_duration := s.current_green_duration }
    | LightState.green =>
      { s with state := LightState.yellow, current_duration := 3 }
    | LightState.yellow =>
      { s with state := LightState.red, current_duration := 15 }
  | CycleEvent.update analysis_data => update_logic_with_analysis s analysis_data

/-- Applying a burst of update calls (the pipeline notifying the
controller several times while a phase is in progress). -/
def run_updates (s : TrafficLightController) :
    List AnalysisDict → TrafficLightController
  | [] => s
  | a :: rest => run_updates (update_logic_with_analysis s a) rest

/-- C1: for every analysis update carrying vehicle count c,
update_logic_with_analysis stores max(5, min(5 + c/2, 20)) as the
suggested green duration, which therefore always lies in [5, 20]; in
particular c = 0 gives 5, c = 10 gives 10 and c = 40 gives 20. -/
theorem c1_green_duration_clamp :
    (∀ (s : TrafficLightController) (c : ℤ),
      (update_logic_with_analysis s ⟨some c⟩).current_green_duration
          = max 5 (min (5 + (c : ℚ) * (1 / 2)) 20)
        ∧ 5 ≤ (update_logic_with_analysis s ⟨some c⟩).current_green_duration
        ∧ (update_logic_with_analysis s ⟨some c⟩).current_green_duration ≤ 20)
    ∧ (∀ s : TrafficLightController,
        (update_logic_with_analysis s ⟨some 0⟩).current_green_duration = 5
        ∧ (update_logic_with_analysis s ⟨some 10⟩).current_green_duration = 10
        ∧ (update_logic_with_analysis s ⟨some 40⟩).current_green_duration = 20) := by
  constructor
  · intro s c
    refine ⟨?_, ?_, ?_⟩
    · simp [update_logic_with_analysis, green_light_base_duration,
        green_light_max_duration]
    · simp only [update_logic_with_analysis, green_light_base_duration,
        green_light_max_duration]
      exact le_max_left _ _
    · simp only [update_logic_with_analysis, green_light_base_duration,
        green_light_max_duration]
      exact max_le (by norm_num) (min_le_right _ _)
  · intro s
    refine ⟨?_, ?_, ?_⟩ <;>
      simp [update_logic_with_analysis, green_light_base_duration,
        green_light_max_duration] <;> norm_num

/-- C5: get_state always yields exactly one true flag, whatever the
current light state is. -/
theorem c5_exactly_one_flag :
    ∀ state : LightState,
      ((get_state state).red = true ∧ (get_state state).yellow = false
          ∧ (get_state state).green = false)
      ∨ ((get_state state).red = false ∧ (get_state state).yellow = true
          ∧ (get_state state).green = false)
      ∨ ((get_state state).red = false ∧ (get_state state).yellow = false
          ∧ (get_state state).green = true) := by
  intro state
  cases state <;> simp [get_state]

/-- C9: an analysis dict lacking the "vehicle_count" key is read as
count 0, so the suggested green duration becomes exactly the base
duration of 5 seconds, and nothing else of the controller changes. -/
theorem c9_missing_key_base_duration :
    ∀ s : TrafficLightController,
      (update_logic_with_analysis s ⟨none⟩).current_green_duration
          = green_light_base_duration
        ∧ (update_logic_with_analysis s ⟨none⟩).state = s.state
        ∧ (update_logic_with_analysis s ⟨none⟩).current_duration
            = s.current_duration := by
  intro s
  refine ⟨?_, rfl, rfl⟩
  simp [update_logic_with_analysis, green_light_base_duration,
    green_light_max_duration]

/-- C4: the light starts at red and every advance of the cycle moves the
light to next_light of the current state, where next_light is exactly
red to green, green to yellow, yellow to red; an update event never
moves the light, so no skipping or reversing transition is observable. -/
theorem c4_cyclic_order :
    initController.state = LightState.red
    ∧ (∀ s : TrafficLightController,
        (cycle_step s CycleEvent.advance).state = next_light s.state)
    ∧ next_light LightState.red = LightState.green
    ∧ next_light LightState.green = LightState.yellow
    ∧ next_light LightState.yellow = LightState.red
    ∧ (∀ (s : TrafficLightController) (e : CycleEvent),
        (cycle_step s e).state = s.state
        ∨ (cycle_step s e).state = next_light s.state) := by
  refine ⟨rfl, ?_, rfl, rfl, rfl, ?_⟩
  · intro s
    cases h : s.state <;> simp [cycle_step, next_light, h]
  · intro s e
    cases e with
    | advance =>
      right
      cases h : s.state <;> simp [cycle_step, next_light, h]
    | update a =>
      left
      rfl

/-- C8: update_logic_with_analysis changes only the separately-held
suggested duration, leaving the light state and the dwell of the phase
in progress untouched; the cycle reads the suggested duration exactly
once, at the instant green is entered; and any burst of updates arriving
after that instant leaves the captured dwell unchanged. -/
theorem c8_update_only_duration :
    (∀ (s : TrafficLightController) (a : AnalysisDict),
      (update_logic_with_analysis s a).state = s.state
      ∧ (update_logic_with_analysis s a).current_duration = s.current_duration)
    ∧ (∀ s : TrafficLightController, s.state = LightState.red →
        (cycle_step s CycleEvent.advance).current_duration
          = s.current_green_duration)
    ∧ (∀ (s : TrafficLightController) (updates : List AnalysisDict),
        (run_updates s updates).current_duration = s.current_duration
        ∧ (run_updates s updates).state = s.state) := by
  refine ⟨fun s a => ⟨rfl, rfl⟩, ?_, ?_⟩
  · intro s h
    simp [cycle_step, h]
  · intro s updates
    induction updates generalizing s with
    | nil => exact ⟨rfl, rfl⟩
    | cons a rest ih =>
      simpa [run_updates] using ih (update_logic_with_analysis s a)

/-- Witness for c8_update_only_duration: from the initial controller,
advancing out of red captures the suggested duration 5 as the dwell. -/
theorem c8_update_only_duration_witness :
    (cycle_step initController CycleEvent.advance).current_duration
      = initController.current_green_duration :=
  c8_update_only_duration.2.1 initController rfl

/-- The analysis dict held in self.latest_analysis_data and returned per
frame by process_frame (analyzer.py): keys vehicle_count and status. -/
structure AnalysisResult where
  vehicle_count : ℤ
  status : String
  deriving DecidableEq

/-- A decoded video frame: an identifier for its pixel content plus the
labels drawn onto it so far by cv2.rectangle / cv2.putText (the box
geometry itself is pixel work of the external cv2 library and is not
modelled). -/
structure Frame where
  image : ℕ
  drawn : List String
  deriving DecidableEq

/-- The mutable attributes of the VideoAnalyzer object that the claims
touch: whether self.model loaded (None or not, analyzer.py lines 29-36),
self.latest_analysis_data, and self.last_capture_time. -/
structure VideoAnalyzer where
  model_loaded : Bool
  latest_analysis_data : AnalysisResult
  last_capture_time : ℚ
  deriving DecidableEq

/-- __init__ (analyzer.py lines 15-36): latest_analysis_data starts as
vehicle_count 0 with status "Initializing..."; last_capture_time starts
at the construction time t0; the model either loads or stays None. -/
def initAnalyzer (model_loaded : Bool) (t0 : ℚ) : VideoAnalyzer :=
  { model_loaded := model_loaded
  , latest_analysis_data := { vehicle_count := 0, status := "Initializing..." }
  , last_capture_time := t0 }

/-- get_latest_analysis (analyzer.py lines 38-40). -/
def get_latest_analysis (s : VideoAnalyzer) : AnalysisResult :=
  s.latest_analysis_data

/-- The status string the spec calls the ModelUnavailable tag
(analyzer.py line 58). -/
def model_unavailable_status : String := "Model not loaded"

/-- The vehicle class set of analyzer.py line 72. -/
def vehicle_classes : List String := ["car", "motorcycle", "bus", "truck"]

/-- The detection loop of process_frame (analyzer.py lines 67-76): for
each detection label, if it is in the vehicle class set, increment
vehicle_count and draw a rectangle and the label on the frame; other
labels are skipped. -/
def detect_loop (frame : Frame) (vehicle_count : ℤ) :
    List String → Frame × ℤ
  | [] => (frame, vehicle_count)
  | label_name :: rest =>
    if label_name ∈ vehicle_classes then
      detect_loop { frame with drawn := frame.drawn ++ [label_name] }
        (vehicle_count + 1) rest
    else
      detect_loop frame vehicle_count rest

/-- process_frame (analyzer.py lines 53-81). The external detector is a
black box, so the labels it reports for this frame are a parameter. If
the model is None, return the frame unmodified together with the result
vehicle_count 0 / "Model not loaded" WITHOUT touching
latest_analysis_data (line 58 returns before line 79). Otherwise run
the detection loop, build the result with status "Processing", store it
in latest_analysis_data and return the annotated frame. -/
def process_frame (s : VideoAnalyzer) (frame : Frame) (labels : List String) :
    Frame × AnalysisResult × VideoAnalyzer :=
  if s.model_loaded = false then
    (frame, { vehicle_count := 0, status := model_unavailable_status }, s)
  else
    let r := detect_loop frame 0 labels
    let analysis_data : AnalysisResult :=
      { vehicle_count := r.2, status := "Processing" }
    (r.1, analysis_data, { s with latest_analysis_data := analysis_data })

/-- Running process_frame over a sequence of frames, each paired with
the labels the detector reports for it (the per-iteration calls the
generate_frames loop makes, analyzer.py line 99). -/
def run_frames (s : VideoAnalyzer) : List (Frame × List String) → VideoAnalyzer
  | [] => s
  | (f, ls) :: rest => run_frames (process_frame s f ls).2.2 rest

/-- The states of a VideoAnalyzer that can actually occur: the fresh
object, and anything process_frame produces from a reachable state. -/
inductive ReachableAnalyzer : VideoAnalyzer → Prop
  | init : ∀ (m : Bool) (t0 : ℚ), ReachableAnalyzer (initAnalyzer m t0)
  | step : ∀ (s : VideoAnalyzer) (f : Frame) (ls : List String),
      ReachableAnalyzer s → ReachableAnalyzer (process_frame s f ls).2.2

/-- The count computed by the detection loop is the running counter plus
the number of labels belonging to the vehicle class set. -/
theorem detect_loop_count (labels : List String) :
    ∀ (frame : Frame) (c : ℤ),
      (detect_loop frame c labels).2
        = c + ((labels.filter fun l => decide (l ∈ vehicle_classes)).length : ℤ) := by
  induction labels with
  | nil => intro frame c; simp [detect_loop]
  | cons l rest ih =>
    intro frame c
    by_cases h : l ∈ vehicle_classes
    · simp [detect_loop, h, ih]
      ring
    · simp [detect_loop, h, ih]

/-- With a loaded model, process_frame produces the result whose count
is the number of vehicle-class labels, with status "Processing", and
stores exactly that result in latest_analysis_data. -/
theorem process_frame_loaded (s : VideoAnalyzer) (frame : Frame)
    (labels : List String) (h : s.model_loaded = true) :
    (process_frame s frame labels).2.1
      = { vehicle_count :=
            ((labels.filter fun l => decide (l ∈ vehicle_classes)).length : ℤ)
        , status := "Processing" }
    ∧ ((process_frame s frame labels).2.2).latest_analysis_data
        = (process_frame s frame labels).2.1 := by
  constructor
  · have hcount := detect_loop_count labels frame 0
    simp only [process_frame, h]
    simp [hcount]
  · simp [process_frame, h]

/-- With an unavailable model, process_frame returns the frame
unmodified together with the zero-count ModelUnavailable result and
leaves the analyzer state unchanged (analyzer.py lines 57-58). -/
theorem process_frame_unloaded (s : VideoAnalyzer) (frame : Frame)
    (labels : List String) (h : s.model_loaded = false) :
    process_frame s frame labels
      = (frame, { vehicle_count := 0, status := model_unavailable_status }, s) := by
  simp [process_frame, h]

/-- C3: on every successfully processed frame, the vehicle count stored
in the analysis result is non-negative and equals exactly the number of
detections whose label is in the set of car, motorcycle, bus and truck;
other labels contribute nothing. The stored snapshot is that same
result. -/
theorem c3_vehicle_count_filter :
    ∀ (s : VideoAnalyzer) (frame : Frame) (labels : List String),
      s.model_loaded = true →
      (0 ≤ ((process_frame s frame labels).2.1).vehicle_count
        ∧ ((process_frame s frame labels).2.1).vehicle_count
            = ((labels.filter fun l => decide (l ∈ vehicle_classes)).length : ℤ)
        ∧ ((process_frame s frame labels).2.2).latest_analysis_data
            = (process_frame s frame labels).2.1) := by
  intro s frame labels h
  obtain ⟨hres, hstore⟩ := process_frame_loaded s frame labels h
  refine ⟨?_, ?_, hstore⟩
  · rw [hres]
    exact Int.ofNat_nonneg _
  · rw [hres]

/-- Witness for c3_vehicle_count_filter: a loaded model, a frame with
detections car, dog, truck gives stored count 2. -/
theorem c3_vehicle_count_filter_witness :
    0 ≤ ((process_frame (initAnalyzer true 0) ⟨0, []⟩
          ["car", "dog", "truck"]).2.1).vehicle_count
    ∧ ((process_frame (initAnalyzer true 0) ⟨0, []⟩
          ["car", "dog", "truck"]).2.1).vehicle_count
        = (((["car", "dog", "truck"] : List String).filter
            fun l => decide (l ∈ vehicle_classes)).length : ℤ)
    ∧ ((process_frame (initAnalyzer true 0) ⟨0, []⟩
          ["car", "dog", "truck"]).2.2).latest_analysis_data
        = (process_frame (initAnalyzer true 0) ⟨0, []⟩
            ["car", "dog", "truck"]).2.1 :=
  c3_vehicle_count_filter (initAnalyzer true 0) ⟨0, []⟩
    ["car", "dog", "truck"] rfl

/-- C2 counterexample: with the model unavailable, after a frame is
processed the RETAINED analysis result returned by get_latest_analysis
still carries the construction-time status "Initializing...", not the
ModelUnavailable tag "Model not loaded": process_frame returns at line
58 of analyzer.py before line 79 would store the result, so the status
query never reports ModelUnavailable. -/
theorem c2_counterexample :
    (get_latest_analysis
        (process_frame (initAnalyzer false 0) ⟨0, []⟩ []).2.2).status
      = "Initializing..."
    ∧ (get_latest_analysis
        (process_frame (initAnalyzer false 0) ⟨0, []⟩ []).2.2).status
      ≠ model_unavailable_status := by
  constructor
  · rfl
  · intro h
    simp [process_frame, initAnalyzer, get_latest_analysis,
      model_unavailable_status] at h

/-- C2 amended: if the model is unavailable, every process_frame call
returns the frame unmodified together with the per-call result
vehicle_count 0 / ModelUnavailable and leaves the analyzer state
entirely unchanged; hence the pipeline keeps emitting frames
indefinitely, but the retained result the status query returns is never
updated on this path and keeps its previous value (initially
vehicle_count 0 with status "Initializing..."). -/
theorem c2_model_unavailable :
    (∀ (s : VideoAnalyzer) (frame : Frame) (labels : List String),
      s.model_loaded = false →
      process_frame s frame labels
        = (frame, { vehicle_count := 0, status := model_unavailable_status }, s))
    ∧ (∀ (s : VideoAnalyzer) (fs : List (Frame × List String)),
        s.model_loaded = false → run_frames s fs = s)
    ∧ (∀ t0 : ℚ, get_latest_analysis (initAnalyzer false t0)
        = { vehicle_count := 0, status := "Initializing..." }) := by
  refine ⟨?_, ?_, fun t0 => rfl⟩
  · intro s frame labels h
    simp [process_frame, h]
  · intro s fs h
    induction fs generalizing s with
    | nil => rfl
    | cons p rest ih =>
      obtain ⟨f, ls⟩ := p
      have hstep : (process_frame s f ls).2.2 = s := by
        simp [process_frame, h]
      rw [run_frames, hstep]
      exact ih s h

/-- Witness for c2_model_unavailable: a fresh analyzer whose model
failed to load passes two frames through unchanged and its retained
snapshot stays the initial one. -/
theorem c2_model_unavailable_witness :
    process_frame (initAnalyzer false 0) ⟨7, []⟩ ["car"]
      = (⟨7, []⟩, { vehicle_count := 0, status := model_unavailable_status },
          initAnalyzer false 0)
    ∧ run_frames (initAnalyzer false 0) [(⟨7, []⟩, ["car"]), (⟨8, []⟩, [])]
        = initAnalyzer false 0 :=
  ⟨c2_model_unavailable.1 (initAnalyzer false 0) ⟨7, []⟩ ["car"] rfl,
   c2_model_unavailable.2.1 (initAnalyzer false 0)
     [(⟨7, []⟩, ["car"]), (⟨8, []⟩, [])] rfl⟩

/-- C10: from construction onward the snapshot query is well-defined:
on the fresh object get_latest_analysis returns vehicle_count 0 with
status "Initializing...", and in every reachable analyzer state the
retained vehicle count is non-negative. -/
theorem c10_snapshot_nonneg :
    (∀ (m : Bool) (t0 : ℚ),
      get_latest_analysis (initAnalyzer m t0)
        = { vehicle_count := 0, status := "Initializing..." })
    ∧ (∀ s : VideoAnalyzer, ReachableAnalyzer s →
        0 ≤ (get_latest_analysis s).vehicle_count) := by
  refine ⟨fun m t0 => rfl, ?_⟩
  intro s hs
  induction hs with
  | init m t0 => simp [get_latest_analysis, initAnalyzer]
  | step s f ls _ ih =>
    by_cases h : s.model_loaded = false
    · rw [process_frame_unloaded s f ls h]
      exact ih
    · have hm : s.model_loaded = true := by
        cases hml : s.model_loaded
        · exact absurd hml h
        · rfl
      obtain ⟨hres, hstore⟩ := process_frame_loaded s f ls hm
      rw [get_latest_analysis, hstore, hres]
      exact Int.ofNat_nonneg _

/-- Witness for c10_snapshot_nonneg: the fresh analyzer is reachable and
its retained vehicle count is non-negative. -/
theorem c10_snapshot_nonneg_witness :
    0 ≤ (get_latest_analysis (initAnalyzer true 0)).vehicle_count :=
  c10_snapshot_nonneg.2 (initAnalyzer true 0) (ReachableAnalyzer.init true 0)

/-- One read of the video source (cv2.VideoCapture.read): a video with k
frames, positioned at pos, returns frame pos and advances when pos < k,
and fails leaving the position where it was when the media is
exhausted. -/
def video_read (k pos : ℕ) : Option ℕ × ℕ :=
  if pos < k then (some pos, pos + 1) else (none, pos)

/-- The read-and-reset step of the generate_frames loop (analyzer.py
lines 93-97): read; if the read fails, set CAP_PROP_POS_FRAMES to 0 and
continue with no frame emitted this iteration. -/
def generate_step (k pos : ℕ) : Option ℕ × ℕ :=
  match video_read k pos with
  | (some f, p) => (some f, p)
  | (none, _) => (none, 0)

/-- The next frame the loop actually emits together with the position
after it: either the first read succeeds, or it fails, the position is
reset to 0 and the following iteration reads from the start (the getD 0
default is only reached on an empty video, where no frame is ever
emitted). -/
def next_emitted (k pos : ℕ) : ℕ × ℕ :=
  match generate_step k pos with
  | (some f, p) => (f, p)
  | (none, p) => ((generate_step k p).1.getD 0, (generate_step k p).2)

/-- The infinite logical sequence of emitted frames of generate_frames,
starting from position pos: element n is the n-th frame emitted. -/
def frame_stream (k pos : ℕ) : ℕ → ℕ
  | 0 => (next_emitted k pos).1
  | n + 1 => frame_stream k (next_emitted k pos).2 n

/-- From any position up to the end of a non-empty video, the emitted
stream is the periodic sequence of frame indices modulo the video
length. -/
theorem frame_stream_mod (k : ℕ) (hk : 0 < k) :
    ∀ (n pos : ℕ), pos ≤ k → frame_stream k pos n = (pos + n) % k := by
  intro n
  induction n with
  | zero =>
    intro pos hpos
    rcases lt_or_eq_of_le hpos with hlt | heq
    · simp [frame_stream, next_emitted, generate_step, video_read, hlt,
        Nat.mod_eq_of_lt]
    · rw [heq]
      simp [frame_stream, next_emitted, generate_step, video_read, hk]
  | succ n ih =>
    intro pos hpos
    rcases lt_or_eq_of_le hpos with hlt | heq
    · have hstep : (next_emitted k pos).2 = pos + 1 := by
        simp [next_emitted, generate_step, video_read, hlt]
      rw [frame_stream, hstep, ih (pos + 1) hlt]
      congr 1
      omega
    · rw [heq]
      have hstep : (next_emitted k k).2 = 1 := by
        simp [next_emitted, generate_step, video_read, hk]
      rw [frame_stream, hstep, ih 1 hk, Nat.add_mod_left]
      congr 1
      omega

/-- C6: when a read fails the loop resets the source position to the
first frame and continues without terminating; for a non-empty video
the logical frame sequence is therefore infinite and periodic: the n-th
emitted frame is n mod k for every n. -/
theorem c6_loop_restarts :
    (∀ k pos : ℕ, k ≤ pos → generate_step k pos = (none, 0))
    ∧ (∀ k : ℕ, 0 < k → ∀ n : ℕ, frame_stream k 0 n = n % k) := by
  constructor
  · intro k pos h
    simp [generate_step, video_read, Nat.not_lt.mpr h]
  · intro k hk n
    simpa using frame_stream_mod k hk n 0 (Nat.zero_le k)

/-- Witness for c6_loop_restarts: a 3-frame video: the read at position
3 fails and resets to the start, and the 7th emitted frame is frame 1. -/
theorem c6_loop_restarts_witness :
    generate_step 3 3 = (none, 0) ∧ frame_stream 3 0 7 = 7 % 3 :=
  ⟨c6_loop_restarts.1 3 3 (by decide), c6_loop_restarts.2 3 (by decide) 7⟩

/-- self.capture_interval = 5 (analyzer.py line 27). -/
def capture_interval : ℚ := 5

/-- The capture check of the generate_frames loop (analyzer.py lines
104-107): if the wall-clock time elapsed since last_capture_time
exceeds the interval, the frame is saved and last_capture_time is reset
to the current time; otherwise nothing happens. Returns whether the
capture sink was invoked with the updated last_capture_time. -/
def capture_check (last_capture_time current_time : ℚ) : Bool × ℚ :=
  if current_time - last_capture_time > capture_interval then
    (true, current_time)
  else
    (false, last_capture_time)

/-- The times at which the capture sink is invoked, over a run of loop
iterations happening at the given wall-clock times. -/
def capture_times (last_capture_time : ℚ) : List ℚ → List ℚ
  | [] => []
  | t :: ts =>
    if (capture_check last_capture_time t).1 then
      t :: capture_times (capture_check last_capture_time t).2 ts
    else
      capture_times (capture_check last_capture_time t).2 ts

/-- When the elapsed time exceeds the interval, the iteration captures:
the current time joins the capture list and becomes the new
last-capture time. -/
theorem capture_times_cons_fire (last t : ℚ) (ts : List ℚ)
    (h : capture_interval < t - last) :
    capture_times last (t :: ts) = t :: capture_times t ts := by
  rw [capture_times]
  simp [capture_check, h]

/-- When the elapsed time does not exceed the interval, the iteration
does not capture and the last-capture time is kept. -/
theorem capture_times_cons_skip (last t : ℚ) (ts : List ℚ)
    (h : ¬ capture_interval < t - last) :
    capture_times last (t :: ts) = capture_times last ts := by
  rw [capture_times]
  simp [capture_check, h]

/-- The first capture of a run happens strictly more than one interval
after the initial last-capture time. -/
theorem capture_times_head (ts : List ℚ) :
    ∀ (last c : ℚ), (capture_times last ts).head? = some c →
      capture_interval < c - last := by
  induction ts with
  | nil => intro last c h; simp [capture_times] at h
  | cons t rest ih =>
    intro last c h
    by_cases hfire : capture_interval < t - last
    · rw [capture_times_cons_fire last t rest hfire] at h
      simp only [List.head?_cons, Option.some_inj] at h
      rw [← h]
      exact hfire
    · rw [capture_times_cons_skip last t rest hfire] at h
      exact ih last c h

/-- Consecutive capture times are always more than one interval apart. -/
theorem capture_times_chain (ts : List ℚ) :
    ∀ last : ℚ,
      List.Chain' (fun a b => capture_interval < b - a)
        (capture_times last ts) := by
  induction ts with
  | nil => intro last; simp [capture_times]
  | cons t rest ih =>
    intro last
    by_cases hfire : capture_interval < t - last
    · rw [capture_times_cons_fire last t rest hfire, List.chain'_cons']
      refine ⟨?_, ih t⟩
      intro b hb
      exact capture_times_head rest t b hb
    · rw [capture_times_cons_skip last t rest hfire]
      exact ih last

/-- C7: the capture sink fires on an iteration if and only if the
wall-clock time elapsed since the last capture strictly exceeds the
5-second interval; when it fires the last-capture timestamp is reset to
the current time, otherwise it is kept; consequently, over any run of
iterations at any rate, consecutive capture times are always more than
one interval apart. -/
theorem c7_capture_cadence :
    (∀ last t : ℚ,
      ((capture_check last t).1 = true ↔ capture_interval < t - last)
      ∧ ((capture_check last t).1 = true → (capture_check last t).2 = t)
      ∧ ((capture_check last t).1 = false → (capture_check last t).2 = last))
    ∧ (∀ (last : ℚ) (ts : List ℚ),
        List.Chain' (fun a b => capture_interval < b - a)
          (capture_times last ts)) := by
  constructor
  · intro last t
    by_cases h : capture_interval < t - last
    · refine ⟨?_, ?_, ?_⟩ <;> simp [capture_check, h]
    · refine ⟨?_, ?_, ?_⟩ <;> simp [capture_check, h]
  · intro last ts
    exact capture_times_chain ts last

/-- Witness for c7_capture_cadence: with the last capture at time 0, an
iteration at time 6 fires and resets the timestamp to 6; the run at
times 1, 6, 8, 12 captures exactly at 6 and 12, which are more than 5
apart. -/
theorem c7_capture_cadence_witness :
    ((capture_check 0 6).1 = true ↔ capture_interval < 6 - 0)
    ∧ ((capture_check 0 6).1 = true → (capture_check 0 6).2 = 6)
    ∧ List.Chain' (fun a b => capture_interval < b - a)
        (capture_times 0 [1, 6, 8, 12]) :=
  ⟨(c7_capture_cadence.1 0 6).1, (c7_capture_cadence.1 0 6).2.1,
    c7_capture_cadence.2 0 [1, 6, 8, 12]⟩
